import Mathlib

/-!
Verification of the sector-oriented market research Flask application.

The Python sources (`app.py`, `update_stocklist_from_wikitables.py`) are
shallowly embedded below.  Conventions used throughout:

* Python floats are modelled as rationals (`ℚ`); the values handled by the
  application (market caps, P/E ratios, prices) are well inside the range
  where float arithmetic is exact enough that none of the verified
  properties depend on rounding.
* A Python dict value that is missing or null/NaN is modelled as `none`
  (pandas itself conflates a missing key and a null into `NaN` when the
  snapshot JSON is loaded with `DataFrame.from_dict`).
* Side effects (the yfinance network call, raised exceptions) are modelled
  by explicit parameters: a `fetch : String → Except Unit StockInfo`
  oracle stands for `yf.Ticker(s).info`, with `Except.error` modelling a
  raised exception.
* `flash(...)` calls only affect the rendered message area and are not part
  of any verified property; they are not modelled.
-/

/-- One decimal digit as a character; `digitChar n` is the character of
`n % 10`-style digits, only ever applied to `n < 10`. -/
def digitChar (n : Nat) : Char :=
  match n with
  | 0 => '0' | 1 => '1' | 2 => '2' | 3 => '3' | 4 => '4'
  | 5 => '5' | 6 => '6' | 7 => '7' | 8 => '8' | _ => '9'

/-- Digit-string worker with an explicit fuel argument (structural
recursion so that concrete values reduce in the kernel); fuel `n + 1`
always suffices since `n / 10 < n`. -/
def natCharsAux : Nat → Nat → List Char
  | 0, _ => []
  | f + 1, n =>
    if n < 10 then [digitChar n]
    else natCharsAux f (n / 10) ++ [digitChar (n % 10)]

/-- Decimal digit string of a natural number, most significant digit first.
Models Python's rendering of a nonnegative integer. -/
def natChars (n : Nat) : List Char := natCharsAux (n + 1) n

/-- Round a rational to the nearest integer, ties to even.  Models the
rounding performed by Python float formatting.  With `q = n/d` in lowest
terms (`d > 0`), `fl` is the floor and the fractional remainder
`(n - fl*d)/d` is compared with `1/2` via `2*(n - fl*d)` versus `d`. -/
def rhe (q : ℚ) : ℤ :=
  let n := q.num
  let d := (q.den : ℤ)
  let fl := n.fdiv d
  let r2 := 2 * (n - fl * d)
  if r2 < d then fl
  else if d < r2 then fl + 1
  else if fl % 2 = 0 then fl else fl + 1

/-- Models Python `f"{x:.2f}"` for a nonnegative value: the value rounded
to two decimals, rendered with exactly two fractional digits. -/
def fmt2Chars (q : ℚ) : List Char :=
  let n := (rhe (q * 100)).toNat
  natChars (n / 100) ++ ['.'] ++
    (if n % 100 < 10 then ['0', digitChar (n % 100)] else natChars (n % 100))

/-- Models Python `str(v)` of the float `v`: a rendering of the raw,
unscaled value.  An integral value renders with a trailing `.0` as Python
does; a non-integral value is rendered as `num/den`.  The verified
properties only use that the raw value (not a scaled, suffixed one) is
rendered here and that the result is never the string `N/A`. -/
def ratChars (q : ℚ) : List Char :=
  (if q < 0 then ['-'] else []) ++
  (if q.den = 1 then natChars q.num.natAbs ++ ['.', '0']
   else natChars q.num.natAbs ++ ['/'] ++ natChars q.den)

/-- The argument passed to `format_market_cap`:  `num v` is a Python value
that `float()` converts to `v` (an int, float or numeric string), and
`nonNumeric` is one where `float()` raises `ValueError` or `TypeError`
(e.g. `None` or a non-numeric string). -/
inductive PyVal
  | num (v : ℚ)
  | nonNumeric
deriving DecidableEq

/-- Embedding of `app.py` lines 93-110:

    def format_market_cap(market_cap):
        try: market_cap = float(market_cap)
        except (ValueError, TypeError): return "N/A"
        if market_cap >= 1e12: return f"{market_cap/1e12:.2f}T"
        elif market_cap >= 1e9: return f"{market_cap/1e9:.2f}B"
        elif market_cap >= 1e6: return f"{market_cap/1e6:.2f}M"
        elif market_cap >= 1e3: return f"{market_cap/1e3:.2f}K"
        else: return str(market_cap)

The function is total: every branch produces a string. -/
def format_market_cap (x : PyVal) : String :=
  match x with
  | .nonNumeric => "N/A"
  | .num v =>
    if v ≥ 10^12 then String.mk (fmt2Chars (v / 10^12) ++ ['T'])
    else if v ≥ 10^9 then String.mk (fmt2Chars (v / 10^9) ++ ['B'])
    else if v ≥ 10^6 then String.mk (fmt2Chars (v / 10^6) ++ ['M'])
    else if v ≥ 10^3 then String.mk (fmt2Chars (v / 10^3) ++ ['K'])
    else String.mk (ratChars v)

lemma digitChar_isDigit (n : Nat) : (digitChar n).isDigit = true := by
  unfold digitChar
  split <;> decide

lemma getLast?_append_singleton (l : List Char) (c : Char) :
    (l ++ [c]).getLast? = some c := by
  induction l with
  | nil => rfl
  | cons a t ih =>
    rcases t with _ | ⟨b, t⟩
    · rfl
    · simpa using ih

lemma natChars_getLast?_isDigit (n : Nat) :
    ∃ c, (natChars n).getLast? = some c ∧ c.isDigit = true := by
  unfold natChars natCharsAux
  split
  · exact ⟨digitChar n, rfl, digitChar_isDigit n⟩
  · exact ⟨digitChar (n % 10), getLast?_append_singleton _ _, digitChar_isDigit _⟩

lemma natChars_ne_nil (n : Nat) : natChars n ≠ [] := by
  unfold natChars natCharsAux
  split <;> simp

lemma exists_append_of_getLast? :
    ∀ (l : List Char) (c : Char), l.getLast? = some c → ∃ t, l = t ++ [c]
  | [], c, h => by simp at h
  | [a], c, h => by
      refine ⟨[], ?_⟩
      have ha : a = c := by simpa using h
      simp [ha]
  | a :: b :: t, c, h => by
      have h2 : (b :: t).getLast? = some c := by
        rwa [List.getLast?_cons_cons] at h
      rcases exists_append_of_getLast? (b :: t) c h2 with ⟨t3, ht⟩
      exact ⟨a :: t3, by simp [ht]⟩

lemma ratChars_getLast?_isDigit (q : ℚ) :
    ∃ c, (ratChars q).getLast? = some c ∧ c.isDigit = true := by
  unfold ratChars
  rcases natChars_getLast?_isDigit q.den with ⟨c, hc, hcd⟩
  split <;> split
  · refine ⟨'0', ?_, by decide⟩
    rw [List.getLast?_append_of_ne_nil _ (by simp),
      List.getLast?_append_of_ne_nil _ (by simp)]
    rfl
  · refine ⟨c, ?_, hcd⟩
    rw [List.getLast?_append_of_ne_nil _ (by simp [natChars_ne_nil]),
      List.getLast?_append_of_ne_nil _ (natChars_ne_nil _)]
    exact hc
  · refine ⟨'0', ?_, by decide⟩
    rw [List.getLast?_append_of_ne_nil _ (by simp),
      List.getLast?_append_of_ne_nil _ (by simp)]
    rfl
  · refine ⟨c, ?_, hcd⟩
    rw [List.getLast?_append_of_ne_nil _ (by simp [natChars_ne_nil]),
      List.getLast?_append_of_ne_nil _ (natChars_ne_nil _)]
    exact hc

lemma mk_append_singleton_ne_NA (l : List Char) (c : Char)
    (h : c.isDigit = true ∨ c = 'T' ∨ c = 'B' ∨ c = 'M' ∨ c = 'K') :
    String.mk (l ++ [c]) ≠ "N/A" := by
  intro he
  have hdata : l ++ [c] = ['N', '/', 'A'] := by
    simpa using congrArg String.data he
  have hlast : some c = some 'A' := by
    rw [← getLast?_append_singleton l c, hdata]
    rfl
  have : c = 'A' := Option.some.inj hlast
  subst this
  rcases h with h | h | h | h | h <;> simp_all

/-- C8: `format_market_cap` is total and partitions its input by magnitude:
it returns `"N/A"` exactly when the input cannot be converted to a float;
otherwise, for value `v`, it returns a two-decimal string suffixed `T` if
`v ≥ 1e12`, `B` if `1e9 ≤ v < 1e12`, `M` if `1e6 ≤ v < 1e9`, `K` if
`1e3 ≤ v < 1e6`, and `str(v)` for `v < 1e3`.  Totality of the Lean
function embeds the fact that the Python function never raises. -/
theorem format_market_cap_spec (x : PyVal) :
    (format_market_cap x = "N/A" ↔ x = PyVal.nonNumeric) ∧
    (∀ v : ℚ, x = PyVal.num v →
      ((10^12 ≤ v → format_market_cap x = String.mk (fmt2Chars (v / 10^12) ++ ['T'])) ∧
       (10^9 ≤ v ∧ v < 10^12 →
         format_market_cap x = String.mk (fmt2Chars (v / 10^9) ++ ['B'])) ∧
       (10^6 ≤ v ∧ v < 10^9 →
         format_market_cap x = String.mk (fmt2Chars (v / 10^6) ++ ['M'])) ∧
       (10^3 ≤ v ∧ v < 10^6 →
         format_market_cap x = String.mk (fmt2Chars (v / 10^3) ++ ['K'])) ∧
       (v < 10^3 → format_market_cap x = String.mk (ratChars v)))) := by
  constructor
  · constructor
    · intro h
      rcases x with v | _
      · exfalso
        revert h
        simp only [format_market_cap]
        split_ifs
        · exact mk_append_singleton_ne_NA _ _ (Or.inr (Or.inl rfl))
        · exact mk_append_singleton_ne_NA _ _ (Or.inr (Or.inr (Or.inl rfl)))
        · exact mk_append_singleton_ne_NA _ _ (Or.inr (Or.inr (Or.inr (Or.inl rfl))))
        · exact mk_append_singleton_ne_NA _ _ (Or.inr (Or.inr (Or.inr (Or.inr rfl))))
        · rcases ratChars_getLast?_isDigit v with ⟨c, hc, hcd⟩
          rcases exists_append_of_getLast? _ _ hc with ⟨l, hl⟩
          rw [hl]
          exact mk_append_singleton_ne_NA _ _ (Or.inl hcd)
      · rfl
    · rintro rfl
      rfl
  · rintro v rfl
    refine ⟨fun h => ?_, fun h => ?_, fun h => ?_, fun h => ?_, fun h => ?_⟩
    · simp only [format_market_cap]
      split_ifs <;> first | rfl | (exfalso; linarith)
    · obtain ⟨ha, hb⟩ := h
      simp only [format_market_cap]
      split_ifs <;> first | rfl | (exfalso; linarith)
    · obtain ⟨ha, hb⟩ := h
      simp only [format_market_cap]
      split_ifs <;> first | rfl | (exfalso; linarith)
    · obtain ⟨ha, hb⟩ := h
      simp only [format_market_cap]
      split_ifs <;> first | rfl | (exfalso; linarith)
    · simp only [format_market_cap]
      split_ifs <;> first | rfl | (exfalso; linarith)

unseal Rat.mul Rat.add Rat.inv Rat.sub in
/-- Witness for C8 at `v = 2.5e12`, a value in the `T` branch. -/
theorem format_market_cap_spec_witness :
    (10 : ℚ)^12 ≤ 2500000000000 ∧
      format_market_cap (PyVal.num 2500000000000) = "2.50T" := by
  refine ⟨by norm_num, ?_⟩
  have h := ((format_market_cap_spec (PyVal.num 2500000000000)).2
    2500000000000 rfl).1 (by norm_num)
  rw [h]
  decide

/-- One record of yfinance ticker info / one row of the snapshot
DataFrame.  Only the fields read by `app.py` are modelled; `none` stands
for an absent key as well as for a null/NaN value (pandas conflates the
two when the snapshot JSON is loaded with `DataFrame.from_dict`). -/
structure StockInfo where
  sector : Option String := none
  regularMarketPrice : Option ℚ := none
  trailingPE : Option ℚ := none
  earningsGrowth : Option ℚ := none
  marketCap : Option ℚ := none
  priceToBook : Option ℚ := none
  returnOnEquity : Option ℚ := none
  longName : Option String := none
  shortName : Option String := none
deriving DecidableEq

/-- The empty Python dict `{}` returned by `get_stock_info` on failure. -/
def emptyInfo : StockInfo := {}

/-- The snapshot DataFrame: ticker-indexed rows, in file order.  Also used
for the in-memory `stock_info_cache` contents written to a snapshot. -/
abbrev Snapshot := List (String × StockInfo)

/-- Python `str.upper()` (ASCII case mapping, which covers the ticker
symbols handled by the application). -/
def pyUpper (s : String) : String := String.mk (s.data.map Char.toUpper)

/-- Python `str.strip()`: whitespace removed from both ends. -/
def pyStrip (s : String) : String :=
  String.mk (((s.data.dropWhile Char.isWhitespace).reverse.dropWhile
    Char.isWhitespace).reverse)

/-- `symbol.upper().strip()` as performed at the top of `get_stock_info`. -/
def normalizeSymbol (s : String) : String := pyStrip (pyUpper s)

/-- Embedding of `app.py` lines 77-91 (`get_stock_info`).  The yfinance
call `yf.Ticker(symbol).info` is modelled by the oracle `fetch`;
`Except.error` models a raised exception.  The global `stock_info_cache`
dict is modelled as `cache : String → Option StockInfo`, threaded
explicitly; the result pairs the returned info with the updated cache. -/
def get_stock_info (fetch : String → Except Unit StockInfo) (symbol : String)
    (cache : String → Option StockInfo) :
    StockInfo × (String → Option StockInfo) :=
  match cache (normalizeSymbol symbol) with
  | some info => (info, cache)
  | none =>
    match fetch (normalizeSymbol symbol) with
    | Except.ok info =>
      (info, fun k => if k = normalizeSymbol symbol then some info else cache k)
    | Except.error _ => (emptyInfo, cache)

/-- C3: the stock-info cache is unbounded with no eviction: every entry
present before a `get_stock_info` call is still present with the same
value afterwards (so the key set only grows), and a successfully fetched
result for a new symbol is added under the normalized symbol. -/
theorem get_stock_info_cache_monotone (fetch : String → Except Unit StockInfo)
    (symbol : String) (cache : String → Option StockInfo) :
    (∀ k v, cache k = some v → (get_stock_info fetch symbol cache).2 k = some v) ∧
    (∀ k, ((cache k).isSome = true) →
      (((get_stock_info fetch symbol cache).2 k).isSome = true)) ∧
    (∀ info, cache (normalizeSymbol symbol) = none →
      fetch (normalizeSymbol symbol) = Except.ok info →
      (get_stock_info fetch symbol cache).2 (normalizeSymbol symbol) = some info) := by
  have hpres : ∀ k v, cache k = some v →
      (get_stock_info fetch symbol cache).2 k = some v := by
    intro k v hkv
    rcases h : cache (normalizeSymbol symbol) with _ | info0
    · rcases hf : fetch (normalizeSymbol symbol) with e | info1
      · simp [get_stock_info, h, hf, hkv]
      · by_cases hk : k = normalizeSymbol symbol
        · subst hk
          rw [hkv] at h
          exact absurd h (by simp)
        · simp [get_stock_info, h, hf, hk, hkv]
    · simp [get_stock_info, h, hkv]
  refine ⟨hpres, ?_, ?_⟩
  · intro k hk
    rcases hv : cache k with _ | v
    · rw [hv] at hk
      simp at hk
    · rw [hpres k v hv]
      rfl
  · intro info hnone hf
    simp [get_stock_info, hnone, hf]

/-- C4: failure recovery in `get_stock_info` is just catching the
exception: when the symbol is not cached, a failing fetch yields the empty
dict and leaves the cache untouched, while a successful fetch stores and
returns the fetched info under the normalized symbol. -/
theorem get_stock_info_error_handling (fetch : String → Except Unit StockInfo)
    (symbol : String) (cache : String → Option StockInfo)
    (hmiss : cache (normalizeSymbol symbol) = none) :
    (fetch (normalizeSymbol symbol) = Except.error () →
      get_stock_info fetch symbol cache = (emptyInfo, cache)) ∧
    (∀ info, fetch (normalizeSymbol symbol) = Except.ok info →
      (get_stock_info fetch symbol cache).1 = info ∧
      (get_stock_info fetch symbol cache).2 (normalizeSymbol symbol) = some info) := by
  constructor
  · intro hf
    simp [get_stock_info, hmiss, hf]
  · intro info hf
    simp [get_stock_info, hmiss, hf]

/-- A sample cached info record used by concrete witnesses. -/
def infoA : StockInfo := { sector := some "Technology", regularMarketPrice := some 100 }

/-- A sample one-entry cache used by concrete witnesses. -/
def cacheA : String → Option StockInfo :=
  fun k => if k = "AAPL" then some infoA else none

/-- Witness for C3: a cached entry survives an unrelated call, and a fetch
for a new symbol lands in the cache under the normalized key. -/
theorem get_stock_info_cache_monotone_witness :
    (get_stock_info (fun _ => Except.ok emptyInfo) "msft" cacheA).2 "AAPL" = some infoA ∧
    (get_stock_info (fun _ => Except.ok { sector := some "Energy" }) " xom" cacheA).2 "XOM" =
      some { sector := some "Energy" } := by
  constructor
  · exact (get_stock_info_cache_monotone (fun _ => Except.ok emptyInfo) "msft" cacheA).1
      "AAPL" infoA (by decide)
  · exact (get_stock_info_cache_monotone (fun _ => Except.ok { sector := some "Energy" })
      " xom" cacheA).2.2 { sector := some "Energy" } (by decide) rfl

/-- Witness for C4: a failing fetch returns the empty dict and the
untouched cache; a successful fetch is stored. -/
theorem get_stock_info_error_handling_witness :
    get_stock_info (fun _ => Except.error ()) "tsla" cacheA = (emptyInfo, cacheA) ∧
    (get_stock_info (fun _ => Except.ok infoA) "tsla" cacheA).2 "TSLA" = some infoA := by
  constructor
  · exact (get_stock_info_error_handling (fun _ => Except.error ()) "tsla" cacheA
      (by decide)).1 rfl
  · exact ((get_stock_info_error_handling (fun _ => Except.ok infoA) "tsla" cacheA
      (by decide)).2 infoA rfl).2

/-- One plotly `go.Scatter` trace of the Sharpe chart: `x = range(30)`,
simulated y-prices, and the ticker as the trace name. -/
structure SharpeTrace where
  x : List Nat
  y : List ℚ
  name : String
deriving DecidableEq

/-- The figure built by `generate_sharpe_chart` (data plus title; the axis
labels carry no verified content). -/
structure SharpeChart where
  data : List SharpeTrace
  title : String
deriving DecidableEq

/-- The base price chosen in `generate_sharpe_chart`: the row's
`regularMarketPrice` when the ticker is in the snapshot index with a
non-null price, else `100`. -/
def basePriceOf (df : Snapshot) (ticker : String) : ℚ :=
  match (df.lookup ticker).bind StockInfo.regularMarketPrice with
  | some p => p
  | none => 100

/-- Embedding of `app.py` lines 114-142 (`generate_sharpe_chart`).  One
trace per requested ticker with `y = [base_price * (1 + 0.01*i) for i in
range(30)]`.  The function is total (it never returns `None`); the
`flash` call for missing tickers is a UI side effect and not modelled. -/
def generate_sharpe_chart (tickers : List String) (df : Snapshot) : SharpeChart :=
  { data := tickers.map (fun ticker =>
      { x := List.range 30
        y := (List.range 30).map (fun i : ℕ => basePriceOf df ticker * (1 + (1/100 : ℚ) * (i : ℚ)))
        name := ticker })
    title := "Portfolio Simulation: Sharpe Ratio Analysis" }

/-- C9: `generate_sharpe_chart` is total — unlike the bubble-chart
generators it can never yield `None` (its Lean embedding returns a plain
`SharpeChart`, and the index route wraps it in `some`): for every ticker
list it produces one 30-point trace per ticker, with the base price of any
ticker missing from the snapshot or lacking a `regularMarketPrice`
substituted by 100. -/
theorem sharpe_chart_total (tickers : List String) (df : Snapshot) :
    (generate_sharpe_chart tickers df).data.length = tickers.length ∧
    (∀ i (h1 : i < (generate_sharpe_chart tickers df).data.length)
       (h2 : i < tickers.length),
      ((generate_sharpe_chart tickers df).data.get ⟨i, h1⟩).y.length = 30 ∧
      (generate_sharpe_chart tickers df).data.get ⟨i, h1⟩ =
        { x := List.range 30
          y := (List.range 30).map (fun j : ℕ =>
            basePriceOf df (tickers.get ⟨i, h2⟩) * (1 + (1/100 : ℚ) * (j : ℚ)))
          name := tickers.get ⟨i, h2⟩ }) ∧
    (∀ t, (df.lookup t).bind StockInfo.regularMarketPrice = none →
      basePriceOf df t = 100) := by
  refine ⟨by simp [generate_sharpe_chart], ?_, ?_⟩
  · intro i h1 h2
    have hrec : (generate_sharpe_chart tickers df).data.get ⟨i, h1⟩ =
        { x := List.range 30
          y := (List.range 30).map (fun j : ℕ =>
            basePriceOf df (tickers.get ⟨i, h2⟩) * (1 + (1/100 : ℚ) * (j : ℚ)))
          name := tickers.get ⟨i, h2⟩ } := by
      simp [generate_sharpe_chart]
    refine ⟨?_, hrec⟩
    rw [hrec]
    simp
  · intro t h
    simp [basePriceOf, h]

/-- Witness for C9: a ticker absent from an empty snapshot still gets a
30-point trace, with base price 100. -/
theorem sharpe_chart_total_witness :
    ((generate_sharpe_chart ["ABSENT"] []).data.get ⟨0, by decide⟩).y.length = 30 ∧
    basePriceOf [] "ABSENT" = 100 := by
  constructor
  · exact ((sharpe_chart_total ["ABSENT"] []).2.1 0 (by decide) (by decide)).1
  · exact (sharpe_chart_total ["ABSENT"] []).2.2 "ABSENT" rfl

unseal Rat.mul Rat.add Rat.inv Rat.sub in
/-- C2 counterexample: at a concrete call the 30 plotted y-values are the
fixed arithmetic progression `100, 101, ..., 129` — the deterministic
closed form `base_price * (1 + 0.01*i)` — so they are not produced by a
Monte Carlo portfolio simulation or any numeric-library call. -/
theorem sharpe_chart_not_simulated_counterexample :
    (generate_sharpe_chart ["AAPL"] []).data.map SharpeTrace.y =
      [[100, 101, 102, 103, 104, 105, 106, 107, 108, 109, 110, 111, 112, 113, 114,
        115, 116, 117, 118, 119, 120, 121, 122, 123, 124, 125, 126, 127, 128, 129]] := by
  decide

/-- C2 amended: the y-values behind the Sharpe chart are the fixed
closed-form sequence `base_price * (1 + 0.01*i)` for `i = 0..29` (base
price from the snapshot, or 100 when missing); there is no Monte Carlo
simulation. -/
theorem sharpe_chart_closed_form (tickers : List String) (df : Snapshot) :
    ∀ i (h1 : i < (generate_sharpe_chart tickers df).data.length)
      (h2 : i < tickers.length),
      ((generate_sharpe_chart tickers df).data.get ⟨i, h1⟩).y =
        (List.range 30).map (fun j : ℕ =>
          basePriceOf df (tickers.get ⟨i, h2⟩) * (1 + (1/100 : ℚ) * (j : ℚ))) := by
  intro i h1 h2
  simp [generate_sharpe_chart]

/-- Witness for the amended C2 at a concrete call. -/
theorem sharpe_chart_closed_form_witness :
    ((generate_sharpe_chart ["ZZZ"] []).data.get ⟨0, by decide⟩).y =
      (List.range 30).map (fun j : ℕ => basePriceOf [] "ZZZ" * (1 + (1/100 : ℚ) * (j : ℚ))) := by
  exact sharpe_chart_closed_form ["ZZZ"] [] 0 (by decide) (by decide)

/-- One bubble trace (`go.Scatter` with markers): x/y data, marker sizes,
`customdata` (the ticker symbols) and the trace name.  The hover-text
strings carry no verified content and are not modelled. -/
structure BubbleTrace where
  x : List ℚ
  y : List ℚ
  size : List ℚ
  customdata : List String
  name : String
deriving DecidableEq

/-- The figure built by each sector bubble-chart generator: the sector
trace, the highlighted user trace and the title. -/
structure BubbleChart where
  sectorTrace : BubbleTrace
  userTrace : BubbleTrace
  title : String
deriving DecidableEq

/-- The sector set computed at the top of `generate_pe_scatter_chart`
(`app.py` lines 154-163): sectors of the requested tickers that are in the
snapshot with non-null sector info, in first-seen order (the Python code
collects them into a `set`; list-with-dedup is the order-explicit model). -/
def peSectors (tickers : List String) (df : Snapshot) : List String :=
  tickers.foldl (fun acc ticker =>
    match df.lookup ticker with
    | none => acc
    | some row =>
      match row.sector with
      | none => acc
      | some sec => if sec ∈ acc then acc else acc ++ [sec]) []

/-- The sector set computed at the top of
`generate_trailingPE_vs_earningsGrowth_chart` (`app.py` lines 235-244),
textually identical to the one in `generate_pe_scatter_chart`. -/
def pegSectors (tickers : List String) (df : Snapshot) : List String :=
  tickers.foldl (fun acc ticker =>
    match df.lookup ticker with
    | none => acc
    | some row =>
      match row.sector with
      | none => acc
      | some sec => if sec ∈ acc then acc else acc ++ [sec]) []

/-- The sector set computed at the top of
`generate_priceToBook_vs_ROE_chart` (`app.py` lines 316-325), textually
identical to the one in `generate_pe_scatter_chart`. -/
def pbroeSectors (tickers : List String) (df : Snapshot) : List String :=
  tickers.foldl (fun acc ticker =>
    match df.lookup ticker with
    | none => acc
    | some row =>
      match row.sector with
      | none => acc
      | some sec => if sec ∈ acc then acc else acc ++ [sec]) []

/-- Embedding of `app.py` lines 144-224 (`generate_pe_scatter_chart`).
Returns `none` (Python `None`) when no requested ticker contributed a
sector; otherwise filters the snapshot to rows of those sectors with
non-null `trailingPE`, `regularMarketPrice` and `marketCap`, splits into
user/sector rows, and builds the two traces (marker size
`max(10, cap/total*100*2)`). -/
def generate_pe_scatter_chart (tickers : List String) (df : Snapshot) :
    Option BubbleChart :=
  let sectors := peSectors tickers df
  if sectors = [] then none
  else
    let inSector := df.filter (fun r =>
      match r.2.sector with
      | some s => decide (s ∈ sectors)
      | none => false)
    let filtered := inSector.filter (fun r =>
      r.2.trailingPE.isSome && r.2.regularMarketPrice.isSome && r.2.marketCap.isSome)
    let total := (filtered.map (fun r => r.2.marketCap.getD 0)).sum
    let calcSize : ℚ → ℚ := fun x => max 10 (x / total * 100 * 2)
    let userDf := filtered.filter (fun r => decide (r.1 ∈ tickers))
    let sectorDf := filtered.filter (fun r => !(decide (r.1 ∈ tickers)))
    some
      { sectorTrace :=
          { x := sectorDf.map (fun r => r.2.trailingPE.getD 0)
            y := sectorDf.map (fun r => r.2.regularMarketPrice.getD 0)
            size := sectorDf.map (fun r => calcSize (r.2.marketCap.getD 0))
            customdata := sectorDf.map Prod.fst
            name := "Sector Stocks" }
        userTrace :=
          { x := userDf.map (fun r => r.2.trailingPE.getD 0)
            y := userDf.map (fun r => r.2.regularMarketPrice.getD 0)
            size := userDf.map (fun r => calcSize (r.2.marketCap.getD 0))
            customdata := userDf.map Prod.fst
            name := "User Stocks (Highlighted)" }
        title := "P/E Scatter for Sector(s): " ++ String.intercalate ", " sectors }

/-- Embedding of `app.py` lines 226-305
(`generate_trailingPE_vs_earningsGrowth_chart`): same structure as the P/E
scatter, with y = `earningsGrowth` and the corresponding non-null filter
and title. -/
def generate_trailingPE_vs_earningsGrowth_chart (tickers : List String)
    (df : Snapshot) : Option BubbleChart :=
  let sectors := pegSectors tickers df
  if sectors = [] then none
  else
    let inSector := df.filter (fun r =>
      match r.2.sector with
      | some s => decide (s ∈ sectors)
      | none => false)
    let filtered := inSector.filter (fun r =>
      r.2.trailingPE.isSome && r.2.earningsGrowth.isSome && r.2.marketCap.isSome)
    let total := (filtered.map (fun r => r.2.marketCap.getD 0)).sum
    let calcSize : ℚ → ℚ := fun x => max 10 (x / total * 100 * 2)
    let userDf := filtered.filter (fun r => decide (r.1 ∈ tickers))
    let sectorDf := filtered.filter (fun r => !(decide (r.1 ∈ tickers)))
    some
      { sectorTrace :=
          { x := sectorDf.map (fun r => r.2.trailingPE.getD 0)
            y := sectorDf.map (fun r => r.2.earningsGrowth.getD 0)
            size := sectorDf.map (fun r => calcSize (r.2.marketCap.getD 0))
            customdata := sectorDf.map Prod.fst
            name := "Sector Stocks" }
        userTrace :=
          { x := userDf.map (fun r => r.2.trailingPE.getD 0)
            y := userDf.map (fun r => r.2.earningsGrowth.getD 0)
            size := userDf.map (fun r => calcSize (r.2.marketCap.getD 0))
            customdata := userDf.map Prod.fst
            name := "User Stocks (Highlighted)" }
        title := "Trailing P/E vs. Earnings Growth for Sector(s): " ++
          String.intercalate ", " sectors }

/-- Embedding of `app.py` lines 307-386
(`generate_priceToBook_vs_ROE_chart`): same structure again, with
x = `priceToBook`, y = `returnOnEquity` and the corresponding filter and
title. -/
def generate_priceToBook_vs_ROE_chart (tickers : List String)
    (df : Snapshot) : Option BubbleChart :=
  let sectors := pbroeSectors tickers df
  if sectors = [] then none
  else
    let inSector := df.filter (fun r =>
      match r.2.sector with
      | some s => decide (s ∈ sectors)
      | none => false)
    let filtered := inSector.filter (fun r =>
      r.2.priceToBook.isSome && r.2.returnOnEquity.isSome && r.2.marketCap.isSome)
    let total := (filtered.map (fun r => r.2.marketCap.getD 0)).sum
    let calcSize : ℚ → ℚ := fun x => max 10 (x / total * 100 * 2)
    let userDf := filtered.filter (fun r => decide (r.1 ∈ tickers))
    let sectorDf := filtered.filter (fun r => !(decide (r.1 ∈ tickers)))
    some
      { sectorTrace :=
          { x := sectorDf.map (fun r => r.2.priceToBook.getD 0)
            y := sectorDf.map (fun r => r.2.returnOnEquity.getD 0)
            size := sectorDf.map (fun r => calcSize (r.2.marketCap.getD 0))
            customdata := sectorDf.map Prod.fst
            name := "Sector Stocks" }
        userTrace :=
          { x := userDf.map (fun r => r.2.priceToBook.getD 0)
            y := userDf.map (fun r => r.2.returnOnEquity.getD 0)
            size := userDf.map (fun r => calcSize (r.2.marketCap.getD 0))
            customdata := userDf.map Prod.fst
            name := "User Stocks (Highlighted)" }
        title := "Price-to-Book vs. ROE for Sector(s): " ++
          String.intercalate ", " sectors }

/-- No requested ticker is present in the snapshot with non-null sector
info. -/
def NoSectorInfo (tickers : List String) (df : Snapshot) : Prop :=
  ∀ t ∈ tickers, (df.lookup t).bind StockInfo.sector = none

lemma sectors_foldl_eq_nil (df : Snapshot) (l : List String) :
    ∀ acc : List String,
      ((List.foldl (fun acc ticker =>
        match df.lookup ticker with
        | none => acc
        | some row =>
          match row.sector with
          | none => acc
          | some sec => if sec ∈ acc then acc else acc ++ [sec]) acc l) = [] ↔
      (acc = [] ∧ ∀ t ∈ l, (df.lookup t).bind StockInfo.sector = none)) := by
  induction l with
  | nil => simp
  | cons t l ih =>
    intro acc
    have hstep : ((match df.lookup t with
        | none => acc
        | some row =>
          match row.sector with
          | none => acc
          | some sec => if sec ∈ acc then acc else acc ++ [sec]) = [] ↔
        (acc = [] ∧ (df.lookup t).bind StockInfo.sector = none)) := by
      rcases hl : df.lookup t with _ | row
      · simp
      · rcases hs : row.sector with _ | sec
        · simp [hs]
        · simp only [hs, Option.bind_some]
          by_cases hmem : sec ∈ acc
          · simp only [hmem, if_true]
            constructor
            · intro h
              subst h
              simp at hmem
            · rintro ⟨-, h⟩
              simp [hs] at h
          · simp [hmem, hs]
    rw [List.foldl_cons, ih, hstep, List.forall_mem_cons]
    tauto

/-- C6: the three sector bubble-chart generators are near-duplicates with
identical front-end logic: they compute the same sector set from the
requested tickers, and each returns `None` exactly when no requested
ticker is present in the snapshot with non-null sector info. -/
theorem bubble_generators_agree (tickers : List String) (df : Snapshot) :
    peSectors tickers df = pegSectors tickers df ∧
    peSectors tickers df = pbroeSectors tickers df ∧
    (generate_pe_scatter_chart tickers df = none ↔ NoSectorInfo tickers df) ∧
    (generate_trailingPE_vs_earningsGrowth_chart tickers df = none ↔
      NoSectorInfo tickers df) ∧
    (generate_priceToBook_vs_ROE_chart tickers df = none ↔
      NoSectorInfo tickers df) := by
  have hnil : peSectors tickers df = [] ↔ NoSectorInfo tickers df := by
    simpa [peSectors, NoSectorInfo] using sectors_foldl_eq_nil df tickers []
  have hnil2 : pegSectors tickers df = [] ↔ NoSectorInfo tickers df := hnil
  have hnil3 : pbroeSectors tickers df = [] ↔ NoSectorInfo tickers df := hnil
  refine ⟨rfl, rfl, ?_, ?_, ?_⟩
  · constructor
    · intro h
      by_cases hs : peSectors tickers df = []
      · exact hnil.mp hs
      · exfalso
        revert h
        simp [generate_pe_scatter_chart, hs]
    · intro h
      simp [generate_pe_scatter_chart, hnil.mpr h]
  · constructor
    · intro h
      by_cases hs : pegSectors tickers df = []
      · exact hnil2.mp hs
      · exfalso
        revert h
        simp [generate_trailingPE_vs_earningsGrowth_chart, hs]
    · intro h
      simp [generate_trailingPE_vs_earningsGrowth_chart, hnil2.mpr h]
  · constructor
    · intro h
      by_cases hs : pbroeSectors tickers df = []
      · exact hnil3.mp hs
      · exfalso
        revert h
        simp [generate_priceToBook_vs_ROE_chart, hs]
    · intro h
      simp [generate_priceToBook_vs_ROE_chart, hnil3.mpr h]

/-- Witness for C6: with an empty snapshot no requested ticker has sector
info, and all three generators return `None`. -/
theorem bubble_generators_agree_witness :
    generate_pe_scatter_chart ["NOPE"] [] = none ∧
    generate_trailingPE_vs_earningsGrowth_chart ["NOPE"] [] = none ∧
    generate_priceToBook_vs_ROE_chart ["NOPE"] [] = none := by
  have hno : NoSectorInfo ["NOPE"] [] := by
    intro t ht
    rfl
  exact ⟨(bubble_generators_agree ["NOPE"] []).2.2.1.mpr hno,
    (bubble_generators_agree ["NOPE"] []).2.2.2.1.mpr hno,
    (bubble_generators_agree ["NOPE"] []).2.2.2.2.mpr hno⟩

/-- Python `s.split(',')` worker over the character list; the accumulator
holds the current field reversed. -/
def splitCommaAux : List Char → List Char → List (List Char)
  | [], cur => [cur.reverse]
  | c :: rest, cur =>
    if c = ',' then cur.reverse :: splitCommaAux rest []
    else splitCommaAux rest (c :: cur)

/-- Python `s.split(',')`; note `"".split(',') == ['']`. -/
def pySplitComma (s : String) : List String :=
  (splitCommaAux s.data []).map String.mk

/-- The ticker parsing done by the index route (`app.py` lines 399/408):
`[t.strip().upper() for t in tickers_str.split(',') if t.strip()]`. -/
def parseTickers (s : String) : List String :=
  (pySplitComma s).filterMap (fun t =>
    if pyStrip t = "" then none else some (pyUpper (pyStrip t)))

/-- Python `s.startswith(p)`. -/
def pyStartsWith (s p : String) : Bool := p.data.isPrefixOf s.data

/-- Python `s.endswith(p)`. -/
def pyEndsWith (s p : String) : Bool := p.data.reverse.isPrefixOf s.data.reverse

/-- Python `s.replace(pat, rep)` worker (non-overlapping, left to right)
with fuel for structural recursion; fuel `s.length + 1` always suffices
for a non-empty pattern. -/
def replaceAllAux : Nat → List Char → List Char → List Char → List Char
  | 0, _, _, s => s
  | _ + 1, _, _, [] => []
  | f + 1, pat, rep, c :: rest =>
    if pat ≠ [] ∧ pat.isPrefixOf (c :: rest) then
      rep ++ replaceAllAux f pat rep ((c :: rest).drop pat.length)
    else c :: replaceAllAux f pat rep rest

/-- Python `s.replace(pat, rep)` for a non-empty pattern. -/
def pyReplace (s pat rep : String) : String :=
  String.mk (replaceAllAux (s.data.length + 1) pat.data rep.data s.data)

/-- Computable lexicographic comparison of character lists by code point,
the order Python uses to compare strings (and the order of the Lean
`String` instance, see `listLt_iff`). -/
def listLt : List Char → List Char → Bool
  | _, [] => false
  | [], _ :: _ => true
  | a :: as, b :: bs =>
    if a < b then true
    else if b < a then false
    else listLt as bs

lemma listLt_iff_core : ∀ as bs : List Char, listLt as bs = true ↔ List.lt as bs := by
  intro as
  induction as with
  | nil =>
    intro bs
    cases bs with
    | nil =>
      simp only [listLt]
      constructor
      · intro h
        cases h
      · intro h
        cases h
    | cons b bs =>
      simp only [listLt, true_iff]
      exact List.lt.nil b bs
  | cons a as ih =>
    intro bs
    cases bs with
    | nil =>
      simp only [listLt]
      constructor
      · intro h
        cases h
      · intro h
        cases h
    | cons b bs =>
      by_cases h1 : a < b
      · simp only [listLt, if_pos h1, true_iff]
        exact List.lt.head as bs h1
      · by_cases h2 : b < a
        · simp only [listLt, if_neg h1, if_pos h2]
          constructor
          · intro h
            cases h
          · intro h
            cases h with
            | head _ _ hab => exact absurd hab h1
            | tail _ hba _ => exact absurd h2 hba
        · simp only [listLt, if_neg h1, if_neg h2]
          rw [ih bs]
          constructor
          · intro h
            exact List.lt.tail h1 h2 h
          · intro h
            cases h with
            | head _ _ hab => exact absurd hab h1
            | tail _ _ htl => exact htl

lemma listLt_iff (x y : String) : listLt x.data y.data = true ↔ x < y := by
  rw [String.lt_iff_toList_lt, listLt_iff_core x.data y.data,
    show (x.toList < y.toList) = List.Lex (· < ·) x.toList y.toList from rfl,
    ← List.lt_iff_lex_lt]
  exact Iff.rfl

/-- Descending insertion used to model Python `list.sort(reverse=True)`:
the element is placed before the first entry not above it. -/
def insertDesc (x : String) : List String → List String
  | [] => [x]
  | y :: ys => if listLt x.data y.data then y :: insertDesc x ys else x :: y :: ys

/-- Model of Python `list.sort(reverse=True)` on filename strings:
descending lexicographic order by code points (Python and Lean compare
strings identically). -/
def sortDesc (l : List String) : List String := l.foldr insertDesc []

lemma mem_insertDesc {x a : String} :
    ∀ {l : List String}, a ∈ insertDesc x l ↔ a = x ∨ a ∈ l := by
  intro l
  induction l with
  | nil => simp [insertDesc]
  | cons y ys ih =>
    by_cases h : listLt x.data y.data = true
    · simp only [insertDesc, if_pos h, List.mem_cons, ih]
      tauto
    · simp only [insertDesc, if_neg h, List.mem_cons]

lemma sorted_insertDesc (x : String) :
    ∀ {l : List String}, l.Sorted (· ≥ ·) → (insertDesc x l).Sorted (· ≥ ·) := by
  intro l
  induction l with
  | nil =>
    intro _
    simp [insertDesc]
  | cons y ys ih =>
    intro hs
    rw [List.sorted_cons] at hs
    by_cases h : listLt x.data y.data = true
    · have hlt : x < y := (listLt_iff x y).mp h
      simp only [insertDesc, if_pos h]
      rw [List.sorted_cons]
      refine ⟨?_, ih hs.2⟩
      intro b hb
      rcases mem_insertDesc.mp hb with rfl | hb2
      · exact le_of_lt hlt
      · exact hs.1 b hb2
    · have hnlt : ¬ x < y := fun hc => h ((listLt_iff x y).mpr hc)
      simp only [insertDesc, if_neg h]
      rw [List.sorted_cons]
      refine ⟨?_, ?_⟩
      · intro b hb
        rcases List.mem_cons.mp hb with rfl | hb2
        · exact le_of_not_lt hnlt
        · exact le_trans (hs.1 b hb2) (le_of_not_lt hnlt)
      · rw [List.sorted_cons]
        exact hs

lemma mem_sortDesc {a : String} :
    ∀ {l : List String}, a ∈ sortDesc l ↔ a ∈ l := by
  intro l
  induction l with
  | nil => simp [sortDesc]
  | cons x xs ih =>
    show a ∈ insertDesc x (sortDesc xs) ↔ _
    rw [mem_insertDesc, ih, List.mem_cons]

lemma sortDesc_sorted : ∀ l : List String, (sortDesc l).Sorted (· ≥ ·)
  | [] => by simp [sortDesc]
  | x :: xs => sorted_insertDesc x (sortDesc_sorted xs)

lemma sortDesc_head_max {l : List String} {m : String} {rest : List String}
    (h : sortDesc l = m :: rest) : m ∈ l ∧ ∀ x ∈ l, x ≤ m := by
  have hmem : m ∈ l := by
    rw [← mem_sortDesc (l := l), h]
    simp
  refine ⟨hmem, ?_⟩
  intro x hx
  have hx2 : x ∈ sortDesc l := mem_sortDesc.mpr hx
  rw [h] at hx2
  rcases List.mem_cons.mp hx2 with rfl | hx3
  · exact le_refl x
  · have hs := sortDesc_sorted l
    rw [h, List.sorted_cons] at hs
    exact hs.1 x hx3

/-- The `snapshot_*.json` filter applied to the snapshot folder listing
(`app.py` lines 43-44 and 65-66). -/
def snapshotFiles (files : List String) : List String :=
  files.filter (fun f => pyStartsWith f "snapshot_" && pyEndsWith f ".json")

/-- Embedding of `app.py` lines 59-75 (`load_snapshot_df`): the most
recent (lexicographically greatest) `snapshot_*.json` file is parsed into
a ticker-indexed DataFrame; with no snapshot files the DataFrame is empty.
The folder contents are modelled as name/parsed-content pairs. -/
def load_snapshot_df (files : List (String × Snapshot)) : Snapshot :=
  let snaps := snapshotFiles (files.map Prod.fst)
  match sortDesc snaps with
  | [] => []
  | latest :: _ => ((files.lookup latest).getD [])

/-- A chart handed to the template: either the (always-present) Sharpe
figure or one of the three bubble figures. -/
inductive Graph
  | sharpe (c : SharpeChart)
  | bubble (c : BubbleChart)
deriving DecidableEq

/-- Embedding of the GET branch of the index route (`app.py` lines
406-423): parse the tickers, load the snapshot DataFrame, and dispatch on
`view`; `graphJSON` stays `None` for an empty ticker list or an unknown
view. -/
def index_get (files : List (String × Snapshot)) (tickersStr view : String) :
    Option Graph :=
  let tickers := parseTickers tickersStr
  let df := load_snapshot_df files
  if tickers = [] then none
  else if view = "sharpe" then some (Graph.sharpe (generate_sharpe_chart tickers df))
  else if view = "pe" then (generate_pe_scatter_chart tickers df).map Graph.bubble
  else if view = "pe_growth" then
    (generate_trailingPE_vs_earningsGrowth_chart tickers df).map Graph.bubble
  else if view = "pb_roe" then
    (generate_priceToBook_vs_ROE_chart tickers df).map Graph.bubble
  else none

/-- C5: the index route's GET chart catalog is dispatched on `view` over
the DataFrame loaded by `load_snapshot_df`: with a non-empty ticker list,
`sharpe`, `pe`, `pe_growth` and `pb_roe` select the four generators, and
`graphJSON` stays `None` for an empty ticker list or any other view. -/
theorem index_dispatch (files : List (String × Snapshot))
    (tickersStr view : String) :
    (parseTickers tickersStr = [] → index_get files tickersStr view = none) ∧
    (parseTickers tickersStr ≠ [] →
      ((view = "sharpe" → index_get files tickersStr view =
        some (Graph.sharpe (generate_sharpe_chart (parseTickers tickersStr)
          (load_snapshot_df files)))) ∧
       (view = "pe" → index_get files tickersStr view =
        (generate_pe_scatter_chart (parseTickers tickersStr)
          (load_snapshot_df files)).map Graph.bubble) ∧
       (view = "pe_growth" → index_get files tickersStr view =
        (generate_trailingPE_vs_earningsGrowth_chart (parseTickers tickersStr)
          (load_snapshot_df files)).map Graph.bubble) ∧
       (view = "pb_roe" → index_get files tickersStr view =
        (generate_priceToBook_vs_ROE_chart (parseTickers tickersStr)
          (load_snapshot_df files)).map Graph.bubble) ∧
       (view ≠ "sharpe" → view ≠ "pe" → view ≠ "pe_growth" → view ≠ "pb_roe" →
        index_get files tickersStr view = none))) := by
  constructor
  · intro h
    simp [index_get, h]
  · intro h
    refine ⟨?_, ?_, ?_, ?_, ?_⟩
    · rintro rfl
      simp [index_get, h]
    · rintro rfl
      simp [index_get, h]
    · rintro rfl
      simp [index_get, h]
    · rintro rfl
      simp [index_get, h]
    · intro h1 h2 h3 h4
      simp [index_get, h, h1, h2, h3, h4]

/-- Witness for C5: a concrete GET with one ticker and the default view
produces the Sharpe figure. -/
theorem index_dispatch_witness :
    index_get [] "AAPL" "sharpe" =
      some (Graph.sharpe (generate_sharpe_chart (parseTickers "AAPL")
        (load_snapshot_df []))) := by
  exact ((index_dispatch [] "AAPL" "sharpe").2 (by decide)).1 rfl

/-- Numeric value of a digit character. -/
def digitVal (c : Char) : Nat := c.toNat - 48

/-- CPython `strptime` matches `%Y` as exactly four digits. -/
def yearParse : List Char → Option (Nat × List Char)
  | a :: b :: c :: d :: rest =>
    if a.isDigit && b.isDigit && c.isDigit && d.isDigit then
      some (digitVal a * 1000 + digitVal b * 100 + digitVal c * 10 + digitVal d, rest)
    else none
  | _ => none

/-- The `%m` regex alternatives of CPython (`1[0-2]|0[1-9]|[1-9]`), in
alternation-preference order, each with the remaining input. -/
def monthAlts : List Char → List (Nat × List Char)
  | c1 :: c2 :: rest =>
    (if c1 == '1' && (c2 == '0' || c2 == '1' || c2 == '2') then
      [(10 + digitVal c2, rest)] else []) ++
    (if c1 == '0' && c2.isDigit && c2 != '0' then [(digitVal c2, rest)] else []) ++
    (if c1.isDigit && c1 != '0' then [(digitVal c1, c2 :: rest)] else [])
  | [c1] => if c1.isDigit && c1 != '0' then [(digitVal c1, [])] else []
  | [] => []

/-- The `%d` regex alternatives (`3[01]|[12]\x5cd|0[1-9]|[1-9]`). -/
def dayAlts : List Char → List (Nat × List Char)
  | c1 :: c2 :: rest =>
    (if c1 == '3' && (c2 == '0' || c2 == '1') then [(30 + digitVal c2, rest)] else []) ++
    (if (c1 == '1' || c1 == '2') && c2.isDigit then
      [(10 * digitVal c1 + digitVal c2, rest)] else []) ++
    (if c1 == '0' && c2.isDigit && c2 != '0' then [(digitVal c2, rest)] else []) ++
    (if c1.isDigit && c1 != '0' then [(digitVal c1, c2 :: rest)] else [])
  | [c1] => if c1.isDigit && c1 != '0' then [(digitVal c1, [])] else []
  | [] => []

/-- The `%H` regex alternatives (`2[0-3]|[0-1]\x5cd|\x5cd`). -/
def hourAlts : List Char → List (Nat × List Char)
  | c1 :: c2 :: rest =>
    (if c1 == '2' && (c2 == '0' || c2 == '1' || c2 == '2' || c2 == '3') then
      [(20 + digitVal c2, rest)] else []) ++
    (if (c1 == '0' || c1 == '1') && c2.isDigit then
      [(10 * digitVal c1 + digitVal c2, rest)] else []) ++
    (if c1.isDigit then [(digitVal c1, c2 :: rest)] else [])
  | [c1] => if c1.isDigit then [(digitVal c1, [])] else []
  | [] => []

/-- The `%M` regex alternatives (`[0-5]\x5cd|\x5cd`). -/
def minuteAlts : List Char → List (Nat × List Char)
  | c1 :: c2 :: rest =>
    (if (c1 == '0' || c1 == '1' || c1 == '2' || c1 == '3' || c1 == '4' || c1 == '5')
        && c2.isDigit then
      [(10 * digitVal c1 + digitVal c2, rest)] else []) ++
    (if c1.isDigit then [(digitVal c1, c2 :: rest)] else [])
  | [c1] => if c1.isDigit then [(digitVal c1, [])] else []
  | [] => []

/-- Regex backtracking: try the alternatives in preference order, keeping
the first one whose continuation succeeds. -/
def tryAlts {α : Type} : List (Nat × List Char) → (Nat → List Char → Option α) → Option α
  | [], _ => none
  | (v, rest) :: t, k =>
    match k v rest with
    | some r => some r
    | none => tryAlts t k

/-- The regex match of `datetime.strptime(s, "%Y%m%d-%H%M")`: year, month,
day, a literal `-`, hour, minute, with full consumption of the input. -/
def parseYmdHM (cs : List Char) : Option (Nat × Nat × Nat × Nat × Nat) :=
  match yearParse cs with
  | none => none
  | some (y, cs1) =>
    tryAlts (monthAlts cs1) (fun m cs2 =>
      tryAlts (dayAlts cs2) (fun d cs3 =>
        match cs3 with
        | '-' :: cs4 =>
          tryAlts (hourAlts cs4) (fun h cs5 =>
            tryAlts (minuteAlts cs5) (fun mi cs6 =>
              if cs6 = [] then some (y, m, d, h, mi) else none))
        | _ => none))

def isLeap (y : Nat) : Bool := (y % 4 == 0 && y % 100 != 0) || y % 400 == 0

def daysInMonth (y m : Nat) : Nat :=
  if m = 2 then (if isLeap y then 29 else 28)
  else if m = 4 || m = 6 || m = 9 || m = 11 then 30
  else 31

def daysBeforeMonth (y m : Nat) : Nat :=
  (List.range (m - 1)).foldl (fun a i => a + daysInMonth y (i + 1)) 0

/-- Minutes from 0001-01-01 00:00 to the given civil datetime (proleptic
Gregorian calendar, as used by Python `datetime`).  Only differences of
such values are used, mirroring `datetime` subtraction. -/
def toMinutes (y m d h mi : Nat) : Int :=
  let days := 365 * (y - 1) + (y - 1) / 4 - (y - 1) / 100 + (y - 1) / 400 +
    daysBeforeMonth y m + (d - 1)
  (days : Int) * 1440 + h * 60 + mi

/-- `datetime.strptime(s, "%Y%m%d-%H%M")` as minutes since 0001-01-01:
`none` when the regex does not match or `datetime(...)` rejects the
fields (year 0, or a day beyond the month length; the regex already
bounds month, hour and minute). -/
def strptimeYmdHM (s : String) : Option Int :=
  match parseYmdHM s.data with
  | none => none
  | some (y, m, d, h, mi) =>
    if 1 ≤ y ∧ d ≤ daysInMonth y m then some (toMinutes y m d h mi) else none

/-- `latest.replace("snapshot_", "").replace(".json", "")` (`app.py`
line 50): both `str.replace` calls replace every occurrence. -/
def stripTimestamp (f : String) : String :=
  pyReplace (pyReplace f "snapshot_" "") ".json" ""

/-- Embedding of `app.py` lines 37-57 (`is_snapshot_outdated`).  The
folder listing is modelled as the list of filenames and
`datetime.datetime.utcnow()` as the parameter `now` (minutes).  Returns
`(outdated, latest_snapshot_filename)`; `timedelta.days` is floor
division by the number of minutes in a day. -/
def is_snapshot_outdated (files : List String) (now : Int) : Bool × Option String :=
  match sortDesc (snapshotFiles files) with
  | [] => (true, none)
  | latest :: _ =>
    match strptimeYmdHM (stripTimestamp latest) with
    | none => (true, some latest)
    | some t => (decide (4 < (now - t).fdiv 1440), some latest)

lemma insertDesc_ne_nil (x : String) (l : List String) : insertDesc x l ≠ [] := by
  cases l with
  | nil => simp [insertDesc]
  | cons y ys =>
    simp only [insertDesc]
    split <;> simp

lemma sortDesc_eq_nil {l : List String} : sortDesc l = [] ↔ l = [] := by
  cases l with
  | nil => simp [sortDesc]
  | cons x xs =>
    constructor
    · intro h
      exact absurd h (insertDesc_ne_nil x (sortDesc xs))
    · intro h
      simp at h

/-- C1: snapshot staleness is a single date-diff check: the reported
latest snapshot is the lexicographically greatest `snapshot_*.json` file,
and `outdated` is `True` exactly when there is no such file, or its
embedded timestamp does not parse as `%Y%m%d-%H%M`, or the difference to
the current UTC time is at least five whole days (`timedelta.days > 4`);
a snapshot exactly 4 days old is not outdated. -/
theorem is_snapshot_outdated_spec (files : List String) (now : Int) :
    ((is_snapshot_outdated files now).2 = none ↔ snapshotFiles files = []) ∧
    (∀ f, (is_snapshot_outdated files now).2 = some f →
      f ∈ snapshotFiles files ∧ ∀ g ∈ snapshotFiles files, g ≤ f) ∧
    ((is_snapshot_outdated files now).1 = true ↔
      ((is_snapshot_outdated files now).2 = none ∨
       ∃ f, (is_snapshot_outdated files now).2 = some f ∧
         (strptimeYmdHM (stripTimestamp f) = none ∨
          ∃ t, strptimeYmdHM (stripTimestamp f) = some t ∧ 5 * 1440 ≤ now - t))) ∧
    (∀ f t, (is_snapshot_outdated files now).2 = some f →
      strptimeYmdHM (stripTimestamp f) = some t → now - t = 4 * 1440 →
      (is_snapshot_outdated files now).1 = false) := by
  rcases hsort : sortDesc (snapshotFiles files) with _ | ⟨latest, rest⟩
  · have hsf : snapshotFiles files = [] := sortDesc_eq_nil.mp hsort
    have hval : is_snapshot_outdated files now = (true, none) := by
      simp [is_snapshot_outdated, hsort]
    rw [hval]
    refine ⟨by simp [hsf], ?_, by simp, ?_⟩
    · intro f hf
      simp at hf
    · intro f t hf
      simp at hf
  · have hmax := sortDesc_head_max hsort
    have hne : ¬ snapshotFiles files = [] := by
      intro h
      rw [h] at hsort
      simp [sortDesc] at hsort
    rcases hp : strptimeYmdHM (stripTimestamp latest) with _ | t0
    · have hval : is_snapshot_outdated files now = (true, some latest) := by
        simp [is_snapshot_outdated, hsort, hp]
      rw [hval]
      refine ⟨by simpa using hne, ?_, ?_, ?_⟩
      · intro f hf
        simp only [Option.some.injEq] at hf
        subst hf
        exact hmax
      · simp only [true_iff, iff_true]
        right
        exact ⟨latest, rfl, Or.inl hp⟩
      · intro f t hf hpt
        simp only [Option.some.injEq] at hf
        subst hf
        rw [hp] at hpt
        cases hpt
    · have hval : is_snapshot_outdated files now =
          (decide (4 < (now - t0).fdiv 1440), some latest) := by
        simp [is_snapshot_outdated, hsort, hp]
      have harith : (4 < (now - t0).fdiv 1440) ↔ 5 * 1440 ≤ now - t0 := by
        rw [Int.fdiv_eq_ediv _ (by norm_num : (0:ℤ) ≤ 1440)]
        constructor
        · intro h
          have h5 : (5:ℤ) ≤ (now - t0) / 1440 := by omega
          have := (Int.le_ediv_iff_mul_le (by norm_num : (0:ℤ) < 1440)).mp h5
          linarith
        · intro h
          have h5 : (5:ℤ) ≤ (now - t0) / 1440 :=
            (Int.le_ediv_iff_mul_le (by norm_num : (0:ℤ) < 1440)).mpr (by linarith)
          omega
      rw [hval]
      refine ⟨by simpa using hne, ?_, ?_, ?_⟩
      · intro f hf
        simp only [Option.some.injEq] at hf
        subst hf
        exact hmax
      · simp only [decide_eq_true_eq, Option.some.injEq]
        rw [harith]
        constructor
        · intro h
          right
          exact ⟨latest, rfl, Or.inr ⟨t0, hp, h⟩⟩
        · rintro (h | ⟨f, rfl, h | ⟨t, hpt, hle⟩⟩)
          · cases h
          · rw [hp] at h
            cases h
          · rw [hp] at hpt
            cases hpt
            exact hle
      · intro f t hf hpt hnt
        simp only [Option.some.injEq] at hf
        subst hf
        rw [hp] at hpt
        cases hpt
        simp only [decide_eq_false_iff_not]
        rw [harith, hnt]
        norm_num

unseal Rat.mul Rat.add Rat.inv Rat.sub in
/-- Witness for C1: with a snapshot stamped 2025-01-01 00:00 and the
clock at exactly four days later, the snapshot is not outdated. -/
theorem is_snapshot_outdated_spec_witness :
    (is_snapshot_outdated
      ["notes.txt", "snapshot_20250101-0000.json", "snapshot_20241230-1200.json"]
      (toMinutes 2025 1 5 0 0)).1 = false := by
  exact (is_snapshot_outdated_spec _ _).2.2.2 "snapshot_20250101-0000.json"
    (toMinutes 2025 1 1 0 0) (by decide) (by decide) (by decide)

/-- One index CSV loaded into `index_data`: its column names and the
values of its `Symbol` column (`none` models NaN, dropped by `dropna`). -/
structure IndexCsv where
  cols : List String
  symbolColumn : List (Option String)
deriving DecidableEq

/-- Order-preserving dedup, modelling pandas `.unique()` and the
accumulation into the Python `set` (whose iteration order is unspecified;
the final cache below is independent of it since distinct tickers update
distinct keys). -/
def dedupKeepFirst (l : List String) : List String :=
  l.foldl (fun acc x => if x ∈ acc then acc else acc ++ [x]) []

/-- `df["Symbol"].dropna().unique().tolist()` followed by
`t.strip().upper()`, for CSVs that have a `Symbol` column (`app.py` lines
440-443). -/
def csvTickers (c : IndexCsv) : List String :=
  if "Symbol" ∈ c.cols then
    (dedupKeepFirst (c.symbolColumn.filterMap id)).map (fun t => pyUpper (pyStrip t))
  else []

/-- Embedding of `app.py` lines 434-461 (`fetch_data`).  The route resets
`stock_info_cache` to `{}`, then for each ticker calls `get_stock_info`
(which itself writes every successfully fetched info into the cache) and
re-stores the info only when `info and "sector" in info`; the `else`
branch just prints and removes nothing.  The returned cache is the final
`stock_info_cache`, and the snapshot file written is exactly
`json.dump` of it. -/
def fetch_data (fetch : String → Except Unit StockInfo)
    (indexData : List IndexCsv) : String → Option StockInfo :=
  let allTickers := dedupKeepFirst
    (indexData.foldl (fun acc c => acc ++ csvTickers c) [])
  allTickers.foldl
    (fun cache ticker =>
      let r := get_stock_info fetch ticker cache
      if r.1 ≠ emptyInfo ∧ r.1.sector.isSome then
        fun k => if k = ticker then some r.1 else r.2 k
      else r.2)
    (fun _ => none)

/-- A successfully fetched info record without a sector (as yfinance
returns for an ETF such as SPY). -/
def etfInfo : StockInfo := { longName := some "SPDR SP500 ETF Trust" }

/-- An index CSV whose `Symbol` column lists only ` spy`. -/
def etfCsv : IndexCsv := { cols := ["Symbol"], symbolColumn := [some " spy"] }

/-- A fetch oracle that succeeds for SPY with sector-less info. -/
def etfFetch : String → Except Unit StockInfo :=
  fun s => if s = "SPY" then Except.ok etfInfo else Except.error ()

/-- C10 is violated by the code: after `fetch_data` at this input the
final `stock_info_cache` — and hence the snapshot serialized from it —
still contains the entry for SPY even though its info has no `sector`
key: `get_stock_info` inserts every successfully fetched info into the
cache, and the `else` branch of `fetch_data` only prints "skipped",
removing nothing. -/
theorem fetch_data_keeps_sectorless_entry :
    fetch_data etfFetch [etfCsv] "SPY" = some etfInfo ∧ etfInfo.sector = none := by
  constructor
  · decide
  · rfl

/-- One wikitable scraped from a page: its column names and rows. -/
structure WikiTable where
  cols : List String
  rows : List (List String)
deriving DecidableEq

/-- `"Symbol" in set(df.columns)` from the scraping script. -/
def hasSymbolCol (t : WikiTable) : Bool := decide ("Symbol" ∈ t.cols)

/-- The loop of `update_stocklist_from_wikitables.py`: for each page the
first wikitable with a `Symbol` column becomes `datatable` (a table-less
page leaves `datatable` holding the previous page's value — or unbound on
the first page, modelled by `none`, in which case `datatable.to_csv`
raises `NameError` and the run yields `none`); each iteration writes
`datatable` to `static/<name>.csv` with `index=False` (so exactly the
table's own columns and rows, no index column). -/
def scrapeGo : List (String × List WikiTable) → Option WikiTable →
    Option (List (String × WikiTable))
  | [], _ => some []
  | (name, tables) :: rest, prev =>
    let dt := match tables.find? hasSymbolCol with
      | some t => some t
      | none => prev
    match dt with
    | none => none
    | some t =>
      match scrapeGo rest (some t) with
      | none => none
      | some ws => some (("static/" ++ name ++ ".csv", t) :: ws)

/-- The two configured Wikipedia URLs and their CSV base names. -/
def urls : List (String × String) := [
  ("https://en.wikipedia.org/wiki/Russell_1000_Index", "Russell_1000_Index"),
  ("https://en.wikipedia.org/wiki/List_of_S%26P_500_companies", "SP500_Index")]

/-- The whole scraping script run against a web oracle mapping each URL
to the wikitables parsed from its page. -/
def runScript (web : String → List WikiTable) :
    Option (List (String × WikiTable)) :=
  scrapeGo (urls.map (fun u => (u.2, web u.1))) none

/-- C7: when each of the two configured Wikipedia pages has a wikitable
whose columns include `Symbol`, the script writes, for each page, the
first such table to `static/<name>.csv` (without the DataFrame index
column, by construction of the model). -/
theorem scrape_writes (web : String → List WikiTable) (t1 t2 : WikiTable)
    (h1 : (web "https://en.wikipedia.org/wiki/Russell_1000_Index").find?
      hasSymbolCol = some t1)
    (h2 : (web "https://en.wikipedia.org/wiki/List_of_S%26P_500_companies").find?
      hasSymbolCol = some t2) :
    runScript web = some [("static/Russell_1000_Index.csv", t1),
      ("static/SP500_Index.csv", t2)] ∧
    "Symbol" ∈ t1.cols ∧ "Symbol" ∈ t2.cols := by
  refine ⟨?_, ?_, ?_⟩
  · simp [runScript, urls, scrapeGo, h1, h2]
  · simpa [hasSymbolCol] using List.find?_some h1
  · simpa [hasSymbolCol] using List.find?_some h2

/-- Sample wikitables and pages for the C7 witness. -/
def wikiT1 : WikiTable := { cols := ["Rank"], rows := [] }

def wikiT2 : WikiTable := { cols := ["Symbol", "Company"], rows := [["AAPL", "Apple"]] }

def wikiT3 : WikiTable := { cols := ["Symbol"], rows := [] }

def demoWeb : String → List WikiTable :=
  fun u => if u = "https://en.wikipedia.org/wiki/Russell_1000_Index" then
    [wikiT1, wikiT2] else [wikiT3]

/-- Witness for C7: on concrete pages the first `Symbol` table of each
page is written to its CSV. -/
theorem scrape_writes_witness :
    runScript demoWeb = some [("static/Russell_1000_Index.csv", wikiT2),
      ("static/SP500_Index.csv", wikiT3)] := by
  exact (scrape_writes demoWeb wikiT2 wikiT3 (by decide) (by decide)).1
